import Mathlib

/-!
# Reform — verification of the health-analytics core and mobile input helpers

Shallow embedding of the Reform repository's computational code:

* `formatAadhaar` (mobile RegisterScreen) and `validatePassword` (mobile
  SetPasswordScreen) are transcribed directly from the JavaScript source;
  strings are modelled as `List Char`.
* The analytics engine (MetricRegistry, TimeSeriesStore, TrendAnalyzer,
  AnomalyDetector, RiskAssessor, Predictor, InsightGenerator) is documented
  in the repository (backend/ai_ml/README.md) but its implementation files
  are not part of the staged sources; those components are modelled from the
  specification's words, with numeric values as exact rationals (`ℚ`) and
  dates as integer day numbers.
-/

namespace Reform

/-! ## Mobile input helpers (RegisterScreen / SetPasswordScreen) -/

/-- JS `text.replace(/\D/g, '')` from `formatAadhaar`: keep only the decimal
digit characters, in order. -/
def cleanDigits (s : List Char) : List Char := s.filter Char.isDigit

/-- Second stage of `formatAadhaar` (RegisterScreen): render an already
cleaned digit list as `XXXX-XXXX-XXXX`.  Mirrors the JS branches on
`cleaned.length`; `slice(4)` is `drop 4`, `slice(4,8)` is `(drop 4).take 4`,
`slice(8,12)` is `(drop 8).take 4`. -/
def fmtDigits (cleaned : List Char) : List Char :=
  if cleaned.length ≤ 4 then cleaned
  else if cleaned.length ≤ 8 then cleaned.take 4 ++ '-' :: cleaned.drop 4
  else cleaned.take 4 ++ '-' :: ((cleaned.drop 4).take 4 ++ '-' :: (cleaned.drop 8).take 4)

/-- `formatAadhaar` from RegisterScreen: strip non-digits, then group. -/
def formatAadhaar (s : List Char) : List Char := fmtDigits (cleanDigits s)

/-- Error message of the length check in `validatePassword`. -/
def pwMsgLength : String := "Password must be at least 8 characters"

/-- Error message of the uppercase check in `validatePassword`. -/
def pwMsgUpper : String := "Password must contain at least one uppercase letter"

/-- Error message of the digit check in `validatePassword`. -/
def pwMsgDigit : String := "Password must contain at least one number"

/-- Error message of the confirmation check in `validatePassword`. -/
def pwMsgMatch : String := "Passwords do not match"

/-- JS `/[A-Z]/.test(password)`. -/
def hasUppercase (p : List Char) : Bool := p.any (fun c => 'A' ≤ c && c ≤ 'Z')

/-- JS `/[0-9]/.test(password)`. -/
def hasDigitChar (p : List Char) : Bool := p.any (fun c => '0' ≤ c && c ≤ '9')

/-- `validatePassword` from SetPasswordScreen: the four checks in source
order; `none` plays the role of JS `null` (validation passed). -/
def validatePassword (password confirmPassword : List Char) : Option String :=
  if password.length < 8 then some pwMsgLength
  else if !hasUppercase password then some pwMsgUpper
  else if !hasDigitChar password then some pwMsgDigit
  else if password ≠ confirmPassword then some pwMsgMatch
  else none

/-! ## MetricRegistry

Modelled from the spec: the registry implementation is not among the staged
source files (only backend/ai_ml/README.md documents it), so the canonical
metric enumeration, normal ranges and directionality follow §4.1 and §3 of
the specification. -/

/-- Modelled from the spec: directionality of a metric (§3 NormalRange). -/
inductive Directionality
  | higherIsWorse
  | lowerIsWorse
  | rangeCentered
deriving DecidableEq

/-- Modelled from the spec: a clinical normal range (§3). -/
structure NormalRange where
  low : ℚ
  high : ℚ
  unit : String
  dir : Directionality
deriving DecidableEq

/-- Modelled from the spec: the closed enumeration of canonical metric names
(§4.1 lists exactly these metrics). -/
inductive Metric
  | hba1c
  | fastingBloodSugar
  | systolicBP
  | diastolicBP
  | totalCholesterol
  | hdlCholesterol
  | ldlCholesterol
  | triglycerides
  | hemoglobin
  | wbcCount
  | plateletCount
  | creatinine
  | alt
  | ast
deriving DecidableEq

/-- All canonical metrics, in registry order. -/
def allMetrics : List Metric :=
  [.hba1c, .fastingBloodSugar, .systolicBP, .diastolicBP, .totalCholesterol,
   .hdlCholesterol, .ldlCholesterol, .triglycerides, .hemoglobin, .wbcCount,
   .plateletCount, .creatinine, .alt, .ast]

/-- Canonical display name of a metric (glossary: "canonical metric"). -/
def canonicalName : Metric → String
  | .hba1c => "HbA1c"
  | .fastingBloodSugar => "Fasting Blood Sugar"
  | .systolicBP => "Systolic Blood Pressure"
  | .diastolicBP => "Diastolic Blood Pressure"
  | .totalCholesterol => "Total Cholesterol"
  | .hdlCholesterol => "HDL Cholesterol"
  | .ldlCholesterol => "LDL Cholesterol"
  | .triglycerides => "Triglycerides"
  | .hemoglobin => "Hemoglobin"
  | .wbcCount => "WBC Count"
  | .plateletCount => "Platelet Count"
  | .creatinine => "Creatinine"
  | .alt => "ALT"
  | .ast => "AST"

/-- Registry lookup of a raw label: `normalRange(metric) -> ... | NotFound`
is modelled by returning `none` for names outside the registry. -/
def parseMetric (s : String) : Option Metric :=
  allMetrics.find? (fun m => canonicalName m == s)

/-- Modelled from the spec: the registry's clinical normal ranges with
directionality (§4.1; standard clinical reference intervals). -/
def normalRange : Metric → NormalRange
  | .hba1c => ⟨4, 5.6, "%", .higherIsWorse⟩
  | .fastingBloodSugar => ⟨70, 100, "mg/dL", .higherIsWorse⟩
  | .systolicBP => ⟨90, 120, "mmHg", .higherIsWorse⟩
  | .diastolicBP => ⟨60, 80, "mmHg", .higherIsWorse⟩
  | .totalCholesterol => ⟨125, 200, "mg/dL", .higherIsWorse⟩
  | .hdlCholesterol => ⟨40, 60, "mg/dL", .lowerIsWorse⟩
  | .ldlCholesterol => ⟨0, 100, "mg/dL", .higherIsWorse⟩
  | .triglycerides => ⟨0, 150, "mg/dL", .higherIsWorse⟩
  | .hemoglobin => ⟨12, 17.5, "g/dL", .rangeCentered⟩
  | .wbcCount => ⟨4, 11, "1000/uL", .rangeCentered⟩
  | .plateletCount => ⟨150, 450, "1000/uL", .rangeCentered⟩
  | .creatinine => ⟨0.6, 1.3, "mg/dL", .higherIsWorse⟩
  | .alt => ⟨7, 56, "U/L", .higherIsWorse⟩
  | .ast => ⟨10, 40, "U/L", .higherIsWorse⟩

/-! ## TimeSeriesStore

Modelled from the spec (§4.2): `ingest` builds, per `(subject, metric)`, a
date-sorted series with last-write-wins on duplicate dates; unknown metric
names and non-numeric values are dropped. -/

/-- Modelled from the spec: a validated sample (§3 MetricSample). -/
structure MetricSample where
  subject_id : String
  metric_name : String
  date : Int
  value : ℚ
  unit : String
deriving DecidableEq

/-- Modelled from the spec: one extracted value of a raw record (§6); the
numeric parse already happened at the boundary, `none` standing for a
non-numeric / unparseable raw value. -/
structure RawValue where
  raw_value : Option ℚ
  unit : String
deriving DecidableEq

/-- Modelled from the spec: a raw record from the record-storage
collaborator (§6). -/
structure RawRecord where
  subject_id : String
  record_date : Int
  category : String
  extracted_values : List (String × RawValue)
deriving DecidableEq

/-- The validated samples one raw record contributes: unknown metric names
and non-numeric values are skipped, as is a unit that differs from the
registry's canonical unit (no conversion is defined). -/
def recordEntries (r : RawRecord) : List MetricSample :=
  r.extracted_values.filterMap fun kv =>
    match parseMetric kv.1, kv.2.raw_value with
    | some m, some q =>
        if kv.2.unit = (normalRange m).unit then
          some ⟨r.subject_id, canonicalName m, r.record_date, q, (normalRange m).unit⟩
        else none
    | _, _ => none

/-- Insert a sample into a date-sorted series; an existing sample with the
same date is replaced (last write wins). -/
def insertByDate (s : MetricSample) : List MetricSample → List MetricSample
  | [] => [s]
  | t :: ts =>
    if s.date < t.date then s :: t :: ts
    else if s.date = t.date then s :: ts
    else t :: insertByDate s ts

/-- One ingestion step: route a validated sample to its
`(subject, metric)` series. -/
def ingestStep (store : String × String → List MetricSample) (s : MetricSample) :
    String × String → List MetricSample :=
  fun k => if k = (s.subject_id, s.metric_name) then insertByDate s (store k) else store k

/-- Modelled from the spec: `ingest(records) -> map[(subject,metric) ->
MetricSeries]` (§4.2), processing records and their extracted values in
order. -/
def ingest (records : List RawRecord) : String × String → List MetricSample :=
  (records.flatMap recordEntries).foldl ingestStep (fun _ => [])

/-- The value the spec promises at a date after ingestion: the last
ingested numeric value for that subject, metric and date ("the
later-ingested one wins"). -/
def lastWrite (k : String × String) (d : Int) (acc : Option ℚ) (s : MetricSample) :
    Option ℚ :=
  if (s.subject_id, s.metric_name) = k ∧ s.date = d then some s.value else acc

/-- Fold `lastWrite` over the validated entries in ingestion order. -/
def lastWriteValue (records : List RawRecord) (k : String × String) (d : Int) :
    Option ℚ :=
  (records.flatMap recordEntries).foldl (lastWrite k d) none

/-- The value a series holds at a date (first — and, for a strictly sorted
series, only — sample with that date). -/
def lookupDate (d : Int) (l : List MetricSample) : Option ℚ :=
  (l.find? (fun s => s.date == d)).map (·.value)

/-! ## Shared statistics (OLS regression, §4.3 and §4.6) -/

/-- Mean of the x coordinates. -/
def xbar (pts : List (ℚ × ℚ)) : ℚ := (pts.map Prod.fst).sum / pts.length

/-- Mean of the y coordinates. -/
def ybar (pts : List (ℚ × ℚ)) : ℚ := (pts.map Prod.snd).sum / pts.length

/-- Centered sum of squares of x. -/
def sxx (pts : List (ℚ × ℚ)) : ℚ := (pts.map (fun p => (p.1 - xbar pts) ^ 2)).sum

/-- Centered cross sum. -/
def sxy (pts : List (ℚ × ℚ)) : ℚ :=
  (pts.map (fun p => (p.1 - xbar pts) * (p.2 - ybar pts))).sum

/-- OLS slope; the singular case (identical x values) is an explicit guarded
branch, per §9, not an exception. -/
def olsSlope (pts : List (ℚ × ℚ)) : ℚ :=
  if sxx pts = 0 then 0 else sxy pts / sxx pts

/-- OLS intercept. -/
def olsIntercept (pts : List (ℚ × ℚ)) : ℚ := ybar pts - olsSlope pts * xbar pts

/-- The fitted OLS line, evaluated at `x`. -/
def olsLine (pts : List (ℚ × ℚ)) (x : ℚ) : ℚ := olsSlope pts * x + olsIntercept pts

/-- Residual sum of squares of the OLS fit. -/
def ssRes (pts : List (ℚ × ℚ)) : ℚ :=
  (pts.map (fun p => (p.2 - olsLine pts p.1) ^ 2)).sum

/-- Total sum of squares. -/
def ssTot (pts : List (ℚ × ℚ)) : ℚ := (pts.map (fun p => (p.2 - ybar pts) ^ 2)).sum

/-- R² of the OLS fit; a constant series (zero total sum of squares) is an
explicit guarded branch yielding a perfect fit. -/
def rSquared (pts : List (ℚ × ℚ)) : ℚ :=
  if ssTot pts = 0 then 1 else 1 - ssRes pts / ssTot pts

/-- Date of the first sample (0 for an empty series). -/
def firstDate : List MetricSample → Int
  | [] => 0
  | f :: _ => f.date

/-- Latest date of the series. -/
def lastDate (series : List MetricSample) : Int :=
  (series.map (·.date)).foldl max (firstDate series)

/-- Day offset of the latest sample from the first. -/
def lastOffset (series : List MetricSample) : ℚ :=
  ((lastDate series - firstDate series : ℤ) : ℚ)

/-- Metric name of the series (empty for an empty series). -/
def metricNameOf : List MetricSample → String
  | [] => ""
  | f :: _ => f.metric_name

/-- The regression points of a series: (days since first sample, value). -/
def seriesPoints (series : List MetricSample) : List (ℚ × ℚ) :=
  series.map (fun s => (((s.date - firstDate series : ℤ) : ℚ), s.value))

/-! ## TrendAnalyzer (modelled from the spec, §4.3) -/

/-- Errors of the analysis operations (§7). -/
inductive AnalysisError
  | insufficientData
  | invalidHorizon
deriving DecidableEq

/-- Trend direction (§3 TrendResult). -/
inductive Direction
  | improving
  | declining
  | stable
deriving DecidableEq

/-- Range status of the latest value (§3 TrendResult). -/
inductive RangeStatus
  | normal
  | borderline
  | abnormal
deriving DecidableEq

/-- Modelled from the spec: the TrendResult record (§3). -/
structure TrendResult where
  subject_id : String
  metric_name : String
  direction : Direction
  strength : ℚ
  mean : ℚ
  min : ℚ
  max : ℚ
  change_pct : ℚ
  latest_value : ℚ
  range_status : RangeStatus
deriving DecidableEq

/-- Clamp `x` into `[lo, hi]`. -/
def clamp (lo hi x : ℚ) : ℚ := max lo (min hi x)

/-- Range status of a value against a normal range: inside → NORMAL, within
a 10%-of-width margin outside → BORDERLINE, beyond → ABNORMAL (§4.3). -/
def rangeStatusOf (r : NormalRange) (v : ℚ) : RangeStatus :=
  let margin := (r.high - r.low) / 10
  if r.low ≤ v ∧ v ≤ r.high then .normal
  else if r.low - margin ≤ v ∧ v ≤ r.high + margin then .borderline
  else .abnormal

/-- Direction from the dead-banded strength, the metric's directionality and
the latest value's position (§4.3): a HIGHER_IS_WORSE metric moving up is
DECLINING (health-wise); the sign is inverted for LOWER_IS_WORSE;
RANGE_CENTERED is STABLE inside the band, otherwise reflects movement
away from (DECLINING) or toward (IMPROVING) the band. -/
def directionOf (r : NormalRange) (strength slope latest : ℚ) : Direction :=
  match r.dir with
  | .higherIsWorse =>
      if strength > 1/20 then .declining
      else if strength < -(1/20) then .improving
      else .stable
  | .lowerIsWorse =>
      if strength < -(1/20) then .declining
      else if strength > 1/20 then .improving
      else .stable
  | .rangeCentered =>
      if r.low ≤ latest ∧ latest ≤ r.high then .stable
      else if (r.high < latest ∧ 0 < slope) ∨ (latest < r.low ∧ slope < 0) then .declining
      else .improving

/-- Modelled from the spec: `analyze(series) -> TrendResult |
InsufficientData` (§4.3).  Requires length ≥ 2; OLS slope of value against
days-since-first; strength is the slope normalized by the normal-range
width, clamped to [-1,1]; change_pct is (last−first)/|first| with the
first-is-zero case guarded to 0. -/
def analyze (series : List MetricSample) : Except AnalysisError TrendResult :=
  match series with
  | [] => .error .insufficientData
  | [_] => .error .insufficientData
  | first :: second :: rest =>
    let s := first :: second :: rest
    let pts := seriesPoints s
    let vals := s.map (·.value)
    let lastSample := (second :: rest).getLast (List.cons_ne_nil _ _)
    let slope := olsSlope pts
    let latest := lastSample.value
    match parseMetric first.metric_name with
    | some m =>
      let r := normalRange m
      let strength := clamp (-1) 1 (slope / (r.high - r.low))
      .ok { subject_id := first.subject_id
            metric_name := first.metric_name
            direction := directionOf r strength slope latest
            strength := strength
            mean := vals.sum / vals.length
            min := vals.foldl min first.value
            max := vals.foldl max first.value
            change_pct := if first.value = 0 then 0
                          else (latest - first.value) / |first.value|
            latest_value := latest
            range_status := rangeStatusOf r latest }
    | none =>
      .ok { subject_id := first.subject_id
            metric_name := first.metric_name
            direction := .stable
            strength := 0
            mean := vals.sum / vals.length
            min := vals.foldl min first.value
            max := vals.foldl max first.value
            change_pct := if first.value = 0 then 0
                          else (latest - first.value) / |first.value|
            latest_value := latest
            range_status := .normal }

/-! ## AnomalyDetector (modelled from the spec, §4.4)

The z-score itself would need a real square root; since
`|z| > 2 ↔ (value − mean)² > 4·variance` whenever the standard deviation is
nonzero, the detector compares squares, and each flag stores the squared
z-score. -/

/-- The reason tags of an anomaly flag (§3 AnomalyFlag). -/
inductive AnomalyReason
  | statisticalOutlier
  | outOfClinicalRange
deriving DecidableEq

/-- Modelled from the spec: an anomaly flag (§3); `sample_index` and the
copied sample fields form the sample reference, `z_sq` is the squared
z-score. -/
structure AnomalyFlag where
  sample_index : Nat
  metric_name : String
  date : Int
  sample_value : ℚ
  z_sq : ℚ
  reasons : List AnomalyReason
deriving DecidableEq

/-- Population mean of the series values. -/
def seriesMean (series : List MetricSample) : ℚ :=
  ((series.map (·.value)).sum) / series.length

/-- Population variance of the series values. -/
def seriesVar (series : List MetricSample) : ℚ :=
  ((series.map (fun s => (s.value - seriesMean series) ^ 2)).sum) / series.length

/-- Is the sample's value strictly outside its metric's normal range?
Unknown metric names have no range, hence no clinical flag. -/
def outsideRange (s : MetricSample) : Bool :=
  match parseMetric s.metric_name with
  | some m => decide (s.value < (normalRange m).low) || decide ((normalRange m).high < s.value)
  | none => false

/-- The reason tags one sample earns: a statistical reason when the
statistics are usable (length ≥ 2 and nonzero variance, the zero-stddev
guard of §4.4) and the squared z-score exceeds 4, plus a clinical reason
when the value is strictly outside the normal range; a sample with both
reasons is reported once with both tags. -/
def anomalyReasons (mean varp : ℚ) (statOK : Bool) (s : MetricSample) :
    List AnomalyReason :=
  (if statOK && decide ((s.value - mean) ^ 2 > 4 * varp) then [.statisticalOutlier] else []) ++
  (if outsideRange s then [.outOfClinicalRange] else [])

/-- Squared z-score of a sample, the zero-variance case guarded to 0. -/
def zSqOf (mean varp : ℚ) (s : MetricSample) : ℚ :=
  if varp = 0 then 0 else (s.value - mean) ^ 2 / varp

/-- The flag (if any) for one sample. -/
def flagFor (mean varp : ℚ) (statOK : Bool) (i : Nat) (s : MetricSample) :
    Option AnomalyFlag :=
  if (anomalyReasons mean varp statOK s).isEmpty then none
  else some ⟨i, s.metric_name, s.date, s.value, zSqOf mean varp s,
    anomalyReasons mean varp statOK s⟩

/-- Modelled from the spec: `detect(series) -> AnomalyFlag[]` (§4.4). -/
def detect (series : List MetricSample) : List AnomalyFlag :=
  let statOK := decide (2 ≤ series.length) && decide (seriesVar series ≠ 0)
  series.enum.filterMap fun p => flagFor (seriesMean series) (seriesVar series) statOK p.1 p.2

/-! ## RiskAssessor (modelled from the spec, §4.5)

§9 leaves the composite weighting a tunable design choice consistent with
the stated thresholds; here every metric has weight 1, each sub-score lies
in [0,100] (0 below the MODERATE threshold, [25,49] between the MODERATE
and HIGH thresholds, [50,100] at or past the HIGH threshold, growing with
the distance past the threshold, clamped), and the weighted sum is clamped
to [0,100]. -/

/-- Disease risk category (§3 RiskScore). -/
inductive RiskCategory
  | diabetes
  | hypertension
  | heartDisease
deriving DecidableEq

/-- Risk level buckets (§3 RiskScore). -/
inductive RiskLevel
  | low
  | moderate
  | high
  | critical
deriving DecidableEq

/-- A contributing factor: the metric, its literal value, and the threshold
it breached (§4.5). -/
structure ContributingFactor where
  metric_name : String
  value : ℚ
  threshold : ℚ
deriving DecidableEq

/-- Modelled from the spec: a per-category risk score (§3 RiskScore). -/
structure RiskScore where
  subject_id : String
  category : RiskCategory
  score : ℚ
  level : RiskLevel
  contributing_factors : List ContributingFactor
  recommendations : List String
deriving DecidableEq

/-- Level bucketing of a composite score (§4.5): <25 LOW, <50 MODERATE,
<75 HIGH, else CRITICAL. -/
def levelOf (score : ℚ) : RiskLevel :=
  if score < 25 then .low
  else if score < 50 then .moderate
  else if score < 75 then .high
  else .critical

/-- Generic high-side sub-score: `tm`/`th` are the MODERATE/HIGH thresholds,
`a`/`b` the per-unit growth rates past them. -/
def subScore (tm th a b v : ℚ) : ℚ :=
  if th ≤ v then min 100 (50 + (v - th) * b)
  else if tm ≤ v then min 49 (25 + (v - tm) * a)
  else 0

/-- The threshold a high-side sub-score breached (HIGH threshold when the
value reaches it, MODERATE threshold otherwise). -/
def breachedThreshold (tm th v : ℚ) : ℚ := if th ≤ v then th else tm

/-- Sub-score for HbA1c: ≥ 6.5 % is the HIGH threshold, 5.7–6.4 % the
MODERATE band (§4.5). -/
def subScoreHbA1c (v : ℚ) : ℚ := subScore 5.7 6.5 30 20 v

/-- Sub-score for fasting blood sugar: ≥ 126 mg/dL HIGH, 100–125 MODERATE
(§4.5). -/
def subScoreFBS (v : ℚ) : ℚ := subScore 100 126 1 1 v

/-- Sub-score for systolic blood pressure: ≥ 140 HIGH, 130–139 MODERATE
(§4.5). -/
def subScoreSys (v : ℚ) : ℚ := subScore 130 140 2 1 v

/-- Sub-score for diastolic blood pressure: ≥ 90 HIGH, 80–89 MODERATE
(§4.5). -/
def subScoreDia (v : ℚ) : ℚ := subScore 80 90 2 2 v

/-- Sub-score for total cholesterol (elevated is worse). -/
def subScoreTotalChol (v : ℚ) : ℚ := subScore 200 240 (1/2) (1/2) v

/-- Sub-score for LDL cholesterol (elevated is worse). -/
def subScoreLDL (v : ℚ) : ℚ := subScore 130 160 (1/2) (1/2) v

/-- Sub-score for HDL cholesterol: low HDL is worse; below 40 mg/dL the
sub-score grows with the shortfall. -/
def subScoreHDL (v : ℚ) : ℚ := if v < 40 then min 100 (50 + (40 - v) * 2) else 0

/-- Static per-category recommendation strings keyed by level (§4.5). -/
def diabetesRecommendations : RiskLevel → List String
  | .critical => ["Consult an endocrinologist promptly"]
  | .high => ["Schedule a diabetes screening with your doctor"]
  | .moderate => ["Adopt dietary changes and re-test HbA1c in 3 months"]
  | .low => ["Maintain current lifestyle"]

/-- Static hypertension recommendations keyed by level (§4.5). -/
def hypertensionRecommendations : RiskLevel → List String
  | .critical => ["Seek a cardiologist evaluation promptly"]
  | .high => ["Monitor blood pressure daily and consult your doctor"]
  | .moderate => ["Reduce sodium intake and recheck in 1 month"]
  | .low => ["Maintain current lifestyle"]

/-- Static heart-disease recommendations keyed by level (§4.5). -/
def heartDiseaseRecommendations : RiskLevel → List String
  | .critical => ["Seek a cardiology consultation promptly"]
  | .high => ["Discuss lipid-lowering therapy with your doctor"]
  | .moderate => ["Adopt a heart-healthy diet and exercise regularly"]
  | .low => ["Maintain current lifestyle"]

/-- Sub-score of an optional latest value (absent metric contributes 0). -/
def optSubScore (f : ℚ → ℚ) : Option ℚ → ℚ
  | some v => f v
  | none => 0

/-- Contributing factor of an optional latest value with a positive
sub-score. -/
def optFactor (name : String) (f : ℚ → ℚ) (tm th : ℚ) : Option ℚ → List ContributingFactor
  | some v => if 0 < f v then [⟨name, v, breachedThreshold tm th v⟩] else []
  | none => []

/-- Modelled from the spec: the DIABETES risk score (§4.5), omitted when
neither HbA1c nor fasting blood sugar is present. -/
def assessDiabetes (subject_id : String) (latest_samples : Metric → Option ℚ) :
    Option RiskScore :=
  let vH := latest_samples Metric.hba1c
  let vF := latest_samples Metric.fastingBloodSugar
  if vH = none ∧ vF = none then none
  else
    let score := min 100 (optSubScore subScoreHbA1c vH + optSubScore subScoreFBS vF)
    some ⟨subject_id, .diabetes, score, levelOf score,
      optFactor "HbA1c" subScoreHbA1c 5.7 6.5 vH ++
        optFactor "Fasting Blood Sugar" subScoreFBS 100 126 vF,
      diabetesRecommendations (levelOf score)⟩

/-- Modelled from the spec: the HYPERTENSION risk score (§4.5). -/
def assessHypertension (subject_id : String) (latest_samples : Metric → Option ℚ) :
    Option RiskScore :=
  let vS := latest_samples Metric.systolicBP
  let vD := latest_samples Metric.diastolicBP
  if vS = none ∧ vD = none then none
  else
    let score := min 100 (optSubScore subScoreSys vS + optSubScore subScoreDia vD)
    some ⟨subject_id, .hypertension, score, levelOf score,
      optFactor "Systolic Blood Pressure" subScoreSys 130 140 vS ++
        optFactor "Diastolic Blood Pressure" subScoreDia 80 90 vD,
      hypertensionRecommendations (levelOf score)⟩

/-- Contributing factor for low HDL (threshold breached from below). -/
def hdlFactor : Option ℚ → List ContributingFactor
  | some v => if 0 < subScoreHDL v then [⟨"HDL Cholesterol", v, 40⟩] else []
  | none => []

/-- Modelled from the spec: the HEART_DISEASE risk score (§4.5); elevated
total/LDL cholesterol and low HDL combine additively. -/
def assessHeartDisease (subject_id : String) (latest_samples : Metric → Option ℚ) :
    Option RiskScore :=
  let vT := latest_samples Metric.totalCholesterol
  let vL := latest_samples Metric.ldlCholesterol
  let vHdl := latest_samples Metric.hdlCholesterol
  if vT = none ∧ vL = none ∧ vHdl = none then none
  else
    let score := min 100 (optSubScore subScoreTotalChol vT +
      optSubScore subScoreLDL vL + optSubScore subScoreHDL vHdl)
    some ⟨subject_id, .heartDisease, score, levelOf score,
      optFactor "Total Cholesterol" subScoreTotalChol 200 240 vT ++
        optFactor "LDL Cholesterol" subScoreLDL 130 160 vL ++ hdlFactor vHdl,
      heartDiseaseRecommendations (levelOf score)⟩

/-- Modelled from the spec: `assess(subject_id, latest_samples) ->
RiskScore[]`, one per category with inputs present (§4.5). -/
def assess (subject_id : String) (latest_samples : Metric → Option ℚ) :
    List RiskScore :=
  [assessDiabetes subject_id latest_samples,
   assessHypertension subject_id latest_samples,
   assessHeartDisease subject_id latest_samples].filterMap id

/-! ## Predictor (modelled from the spec, §4.6) -/

/-- Modelled from the spec: a prediction (§3 Prediction). -/
structure Prediction where
  metric_name : String
  horizon_days : Int
  predicted_value : ℚ
  fit_quality : ℚ
  low_confidence : Bool
deriving DecidableEq

/-- Modelled from the spec: `predict(series, days_ahead) -> Prediction |
InsufficientData | InvalidHorizon` (§4.6).  Needs ≥ 3 distinct dates
spanning ≥ 1 day; `days_ahead` must lie in (0, 365]; the prediction is the
OLS line extrapolated to `lastOffset + days_ahead`; low confidence when
R² < 0.5 or the horizon exceeds 3× the observed span. -/
def predict (series : List MetricSample) (days_ahead : Int) :
    Except AnalysisError Prediction :=
  if ((series.map (·.date)).dedup).length < 3 then .error .insufficientData
  else if lastDate series - firstDate series < 1 then .error .insufficientData
  else if days_ahead ≤ 0 ∨ 365 < days_ahead then .error .invalidHorizon
  else
    let pts := seriesPoints series
    let fit := rSquared pts
    .ok ⟨metricNameOf series, days_ahead,
      olsLine pts (lastOffset series + (days_ahead : ℚ)), fit,
      decide (fit < 1/2) || decide (3 * (lastDate series - firstDate series) < days_ahead)⟩

/-! ## InsightGenerator (modelled from the spec, §4.7) -/

/-- Insight severity (§3 Insight). -/
inductive Severity
  | info
  | warning
  | critical
deriving DecidableEq

/-- Modelled from the spec: an insight (§3); `metric_name` is the metric
component of the deduplication key (empty for category-level insights) and
`source_refs` the identifiers of the merged artifacts. -/
structure Insight where
  subject_id : String
  category : String
  metric_name : String
  severity : Severity
  message : String
  confidence : ℚ
  source_refs : List String
deriving DecidableEq

/-- Numeric rank of a severity, for ordering. -/
def severityRank : Severity → Nat
  | .critical => 2
  | .warning => 1
  | .info => 0

/-- Display name of a risk category. -/
def categoryName : RiskCategory → String
  | .diabetes => "DIABETES"
  | .hypertension => "HYPERTENSION"
  | .heartDisease => "HEART_DISEASE"

/-- A CRITICAL risk becomes a CRITICAL insight, a HIGH risk a WARNING one;
lower levels produce nothing (§4.7). -/
def insightOfRisk (r : RiskScore) : Option Insight :=
  match r.level with
  | .critical => some ⟨r.subject_id, categoryName r.category, "", .critical,
      "Critical disease risk detected", 9/10, ["risk"]⟩
  | .high => some ⟨r.subject_id, categoryName r.category, "", .warning,
      "High disease risk detected", 9/10, ["risk"]⟩
  | _ => none

/-- Every anomaly flag becomes a WARNING insight referencing its sample and
metric (§4.7). -/
def insightOfAnomaly (subject_id : String) (f : AnomalyFlag) : Insight :=
  ⟨subject_id, "ANOMALY", f.metric_name, .warning,
    "Abnormal measurement detected", 4/5, ["anomaly"]⟩

/-- A DECLINING trend outside the normal range becomes a WARNING insight;
all other trends are INFO (§4.7); where a prediction for the metric
participates, its fit quality scales the confidence. -/
def insightOfTrend (predictions : List Prediction) (t : TrendResult) : Insight :=
  let sev : Severity :=
    if t.direction = .declining ∧ t.range_status ≠ .normal then .warning else .info
  let base : ℚ := 7/10
  let conf :=
    match predictions.find? (fun p => p.metric_name == t.metric_name) with
    | some p => clamp 0 1 (base * p.fit_quality)
    | none => base
  ⟨t.subject_id, "TREND", t.metric_name, sev, "Trend computed", conf, ["trend"]⟩

/-- Deduplication key (subject, category, metric) of §4.7. -/
def dedupKey (i : Insight) : String × String × String :=
  (i.subject_id, i.category, i.metric_name)

/-- Of two insights sharing a key, keep the higher severity (then the higher
confidence). -/
def pickHigher (a b : Insight) : Insight :=
  if severityRank a.severity < severityRank b.severity ∨
     (severityRank a.severity = severityRank b.severity ∧ a.confidence < b.confidence)
  then b else a

/-- Deduplicate per key, keeping the highest-severity insight (§4.7). -/
def dedupInsights (l : List Insight) : List Insight :=
  l.foldl (fun acc i =>
    if acc.any (fun j => dedupKey j = dedupKey i) then
      acc.map (fun j => if dedupKey j = dedupKey i then pickHigher j i else j)
    else acc ++ [i]) []

/-- The output ordering of §4.7: descending severity, then descending
confidence. -/
def insightOrder (a b : Insight) : Prop :=
  severityRank b.severity < severityRank a.severity ∨
    (severityRank a.severity = severityRank b.severity ∧ b.confidence ≤ a.confidence)

instance : DecidableRel insightOrder := fun a b => by
  unfold insightOrder; infer_instance

/-- Modelled from the spec: `generate(subject_id, trends, anomalies, risks,
predictions) -> Insight[]` (§4.7): merge, deduplicate, sort. -/
def generate (subject_id : String) (trends : List TrendResult)
    (anomalies : List AnomalyFlag) (risks : List RiskScore)
    (predictions : List Prediction) : List Insight :=
  let merged := risks.filterMap insightOfRisk ++
    anomalies.map (insightOfAnomaly subject_id) ++
    trends.map (insightOfTrend predictions)
  List.insertionSort insightOrder (dedupInsights merged)

/-! ## Core operations over a record snapshot (§6) -/

/-- `analyzeTrends(subject_id)`: analyze every canonical metric's series;
per-metric `InsufficientData` does not fail sibling metrics (§7). -/
def analyzeTrends (records : List RawRecord) (subject_id : String) : List TrendResult :=
  allMetrics.filterMap fun m =>
    (analyze (ingest records (subject_id, canonicalName m))).toOption

/-- `detectAnomalies(subject_id)`: flags over every canonical metric's
series. -/
def detectAnomalies (records : List RawRecord) (subject_id : String) : List AnomalyFlag :=
  allMetrics.flatMap fun m => detect (ingest records (subject_id, canonicalName m))

/-- The latest ingested value per metric, feeding the risk assessor. -/
def latestSamples (records : List RawRecord) (subject_id : String) :
    Metric → Option ℚ :=
  fun m => ((ingest records (subject_id, canonicalName m)).getLast?).map (·.value)

/-- `assessRisks(subject_id)` over the snapshot. -/
def assessRisks (records : List RawRecord) (subject_id : String) : List RiskScore :=
  assess subject_id (latestSamples records subject_id)

/-- 30-day predictions for every canonical metric with enough data. -/
def predictAll (records : List RawRecord) (subject_id : String) : List Prediction :=
  allMetrics.filterMap fun m =>
    (predict (ingest records (subject_id, canonicalName m)) 30).toOption

/-- Modelled from the spec: `generateInsights(subject_id)` (§6), the merge
of all analysis stages over one snapshot of the subject's raw records. -/
def generateInsights (records : List RawRecord) (subject_id : String) : List Insight :=
  generate subject_id (analyzeTrends records subject_id)
    (detectAnomalies records subject_id) (assessRisks records subject_id)
    (predictAll records subject_id)

/-! ## Concrete fixtures for the test-scenario properties (§8) -/

/-- The series of §8's exact-linear-extrapolation scenario: values 10, 20,
30 at day offsets 0, 10, 20. -/
def predDemo : List MetricSample :=
  [⟨"subject-1", "HbA1c", 0, 10, "%"⟩,
   ⟨"subject-1", "HbA1c", 10, 20, "%"⟩,
   ⟨"subject-1", "HbA1c", 20, 30, "%"⟩]

/-- A latest-samples map holding only HbA1c = 6.8 (§8 threshold scenario). -/
def samplesDemo : Metric → Option ℚ :=
  fun m => if m = Metric.hba1c then some 6.8 else none

/-- A constant two-sample HbA1c series at 13 % (strictly above the normal
range), for the constant-series scenario of §8. -/
def constDemo : List MetricSample :=
  [⟨"subject-1", "HbA1c", 0, 13, "%"⟩, ⟨"subject-1", "HbA1c", 1, 13, "%"⟩]

/-- The flag `detect` raises on the first sample of `constDemo`. -/
def constDemoFlag : AnomalyFlag :=
  ⟨0, "HbA1c", 0, 13, 0, [AnomalyReason.outOfClinicalRange]⟩

/-- An HbA1c series with nonzero variance (values 0, 0, 30). -/
def statDemo : List MetricSample :=
  [⟨"subject-1", "HbA1c", 0, 0, "%"⟩,
   ⟨"subject-1", "HbA1c", 1, 0, "%"⟩,
   ⟨"subject-1", "HbA1c", 2, 30, "%"⟩]

/-- The third sample of `statDemo`. -/
def statDemoSample : MetricSample := ⟨"subject-1", "HbA1c", 2, 30, "%"⟩

/-! # Theorems -/

/-! ## Aadhaar formatting (RegisterScreen) -/

lemma cleanDigits_all (s : List Char) : ∀ c ∈ cleanDigits s, c.isDigit :=
  fun _ hc => List.of_mem_filter hc

lemma cleanDigits_of_all {d : List Char} (hd : ∀ c ∈ d, c.isDigit) :
    cleanDigits d = d := List.filter_eq_self.mpr hd

lemma cleanDigits_append (a b : List Char) :
    cleanDigits (a ++ b) = cleanDigits a ++ cleanDigits b := List.filter_append ..

lemma cleanDigits_cons_dash (l : List Char) : cleanDigits ('-' :: l) = cleanDigits l := by
  simp [cleanDigits]

lemma take12_decomp (d : List Char) :
    d.take 12 = d.take 4 ++ ((d.drop 4).take 4 ++ (d.drop 8).take 4) := by
  rw [show (12 : Nat) = 4 + 8 from rfl, List.take_add,
      show (8 : Nat) = 4 + 4 from rfl, List.take_add, List.drop_drop]

lemma cleanDigits_fmtDigits (d : List Char) (hd : ∀ c ∈ d, c.isDigit) :
    cleanDigits (fmtDigits d) = d.take 12 := by
  have ht : ∀ n : Nat, cleanDigits (d.take n) = d.take n :=
    fun n => cleanDigits_of_all fun c hc => hd c (List.mem_of_mem_take hc)
  have hdr : ∀ n : Nat, cleanDigits (d.drop n) = d.drop n :=
    fun n => cleanDigits_of_all fun c hc => hd c (List.mem_of_mem_drop hc)
  have hdt : ∀ m n : Nat, cleanDigits ((d.drop m).take n) = (d.drop m).take n :=
    fun m n => cleanDigits_of_all fun c hc =>
      hd c (List.mem_of_mem_drop (List.mem_of_mem_take hc))
  unfold fmtDigits
  split_ifs with h1 h2
  · rw [cleanDigits_of_all hd, List.take_of_length_le (by omega)]
  · rw [cleanDigits_append, cleanDigits_cons_dash, ht, hdr, List.take_append_drop,
        List.take_of_length_le (show d.length ≤ 12 by omega)]
  · rw [cleanDigits_append, cleanDigits_cons_dash, cleanDigits_append,
        cleanDigits_cons_dash, ht, hdt, hdt, take12_decomp]

lemma fmtDigits_take12 (d : List Char) : fmtDigits (d.take 12) = fmtDigits d := by
  rcases le_or_lt d.length 12 with h | h
  · rw [List.take_of_length_le h]
  · have hlen : (d.take 12).length = 12 := by simp; omega
    unfold fmtDigits
    rw [hlen]
    have h4 : ¬ d.length ≤ 4 := by omega
    have h8 : ¬ d.length ≤ 8 := by omega
    simp only [show ¬ (12 : Nat) ≤ 4 by omega, show ¬ (12 : Nat) ≤ 8 by omega,
      h4, h8, if_false]
    rw [List.take_take, List.drop_take, List.take_take, List.drop_take, List.take_take]
    norm_num

/-- C9: `formatAadhaar` keeps exactly the first 12 digit characters of the
input in order, dropping all non-digits, renders them as dash-separated
groups of at most 4 digits, and is idempotent. -/
theorem formatAadhaar_first12_grouped_idem (s : List Char) :
    (∃ gs : List (List Char),
      (∀ g ∈ gs, g ≠ [] ∧ g.length ≤ 4 ∧ ∀ c ∈ g, c.isDigit) ∧
      gs.flatten = (cleanDigits s).take 12 ∧
      formatAadhaar s = List.intercalate ['-'] gs) ∧
    formatAadhaar (formatAadhaar s) = formatAadhaar s := by
  constructor
  · have hall : ∀ c ∈ cleanDigits s, c.isDigit := cleanDigits_all s
    unfold formatAadhaar fmtDigits
    set d := cleanDigits s with hds
    split_ifs with h1 h2
    · rcases eq_or_ne d [] with he | he
      · exact ⟨[], by simp, by simp [he], by simp [List.intercalate, he]⟩
      · refine ⟨[d], ?_, ?_, by simp [List.intercalate]⟩
        · simpa using ⟨he, h1, hall⟩
        · simp [List.take_of_length_le (show d.length ≤ 12 by omega)]
    · refine ⟨[d.take 4, d.drop 4], ?_, ?_, by simp [List.intercalate]⟩
      · simp only [List.mem_cons, List.not_mem_nil, or_false, forall_eq_or_imp, forall_eq]
        refine ⟨⟨?_, ?_, fun c hc => hall c (List.mem_of_mem_take hc)⟩,
                 ?_, ?_, fun c hc => hall c (List.mem_of_mem_drop hc)⟩
        · apply List.ne_nil_of_length_pos; rw [List.length_take]; omega
        · simp
        · apply List.ne_nil_of_length_pos; rw [List.length_drop]; omega
        · simp; omega
      · simp [List.take_append_drop, List.take_of_length_le (show d.length ≤ 12 by omega)]
    · refine ⟨[d.take 4, (d.drop 4).take 4, (d.drop 8).take 4], ?_, ?_,
        by simp [List.intercalate]⟩
      · simp only [List.mem_cons, List.not_mem_nil, or_false, forall_eq_or_imp, forall_eq]
        refine ⟨⟨?_, by simp, fun c hc => hall c (List.mem_of_mem_take hc)⟩,
                ⟨?_, by simp, fun c hc => hall c (List.mem_of_mem_drop (List.mem_of_mem_take hc))⟩,
                ⟨?_, by simp, fun c hc => hall c (List.mem_of_mem_drop (List.mem_of_mem_take hc))⟩⟩
        · apply List.ne_nil_of_length_pos; rw [List.length_take]; omega
        · apply List.ne_nil_of_length_pos; rw [List.length_take, List.length_drop]; omega
        · apply List.ne_nil_of_length_pos; rw [List.length_take, List.length_drop]; omega
      · simp [take12_decomp]
  · show fmtDigits (cleanDigits (fmtDigits (cleanDigits s))) = fmtDigits (cleanDigits s)
    rw [cleanDigits_fmtDigits _ (cleanDigits_all s), fmtDigits_take12]

/-! ## Password validation (SetPasswordScreen) -/

/-- C10: `validatePassword` passes (returns `none`) iff the password has
length ≥ 8, contains an uppercase letter, contains a digit, and equals the
confirmation; otherwise it returns the message of the first failing check
in source order (length, uppercase, digit, match). -/
theorem validatePassword_first_failure (p c : List Char) :
    (validatePassword p c = none ↔
      (8 ≤ p.length ∧ (∃ ch ∈ p, 'A' ≤ ch ∧ ch ≤ 'Z') ∧
        (∃ ch ∈ p, '0' ≤ ch ∧ ch ≤ '9') ∧ p = c)) ∧
    (p.length < 8 → validatePassword p c = some pwMsgLength) ∧
    (8 ≤ p.length → (∀ ch ∈ p, ¬('A' ≤ ch ∧ ch ≤ 'Z')) →
      validatePassword p c = some pwMsgUpper) ∧
    (8 ≤ p.length → (∃ ch ∈ p, 'A' ≤ ch ∧ ch ≤ 'Z') →
      (∀ ch ∈ p, ¬('0' ≤ ch ∧ ch ≤ '9')) →
      validatePassword p c = some pwMsgDigit) ∧
    (8 ≤ p.length → (∃ ch ∈ p, 'A' ≤ ch ∧ ch ≤ 'Z') →
      (∃ ch ∈ p, '0' ≤ ch ∧ ch ≤ '9') → p ≠ c →
      validatePassword p c = some pwMsgMatch) := by
  have hu : hasUppercase p = true ↔ ∃ ch ∈ p, 'A' ≤ ch ∧ ch ≤ 'Z' := by
    simp [hasUppercase, List.any_eq_true]
  have hd : hasDigitChar p = true ↔ ∃ ch ∈ p, '0' ≤ ch ∧ ch ≤ '9' := by
    simp [hasDigitChar, List.any_eq_true]
  unfold validatePassword
  split_ifs with h1 h2 h3 h4 <;>
    simp_all [pwMsgLength, pwMsgUpper, pwMsgDigit, pwMsgMatch]

/-! ## RiskAssessor: threshold correctness -/

lemma subScore_nonneg (tm th a b v : ℚ) (ha : 0 ≤ a) (hb : 0 ≤ b) :
    0 ≤ subScore tm th a b v := by
  unfold subScore
  split_ifs with h1 h2
  · have : (0:ℚ) ≤ (v - th) * b := mul_nonneg (by linarith) hb
    rw [le_min_iff]; constructor <;> linarith
  · have : (0:ℚ) ≤ (v - tm) * a := mul_nonneg (by linarith) ha
    rw [le_min_iff]; constructor <;> linarith
  · exact le_refl 0

lemma optSubScoreFBS_nonneg (o : Option ℚ) : 0 ≤ optSubScore subScoreFBS o := by
  cases o with
  | none => simp [optSubScore]
  | some v =>
    simpa [optSubScore, subScoreFBS] using
      subScore_nonneg 100 126 1 1 v (by norm_num) (by norm_num)

/-- C1: whenever the latest-samples map holds HbA1c = 6.8, `assess` returns
a DIABETES RiskScore whose level is HIGH or CRITICAL, whose contributing
factors cite the value 6.8 against the threshold 6.5, and whose score lies
in [0, 100]. -/
theorem assess_hba1c_diabetes_high (subject_id : String)
    (latest_samples : Metric → Option ℚ)
    (h : latest_samples Metric.hba1c = some 6.8) :
    ∃ r ∈ assess subject_id latest_samples,
      r.category = RiskCategory.diabetes ∧
      (r.level = RiskLevel.high ∨ r.level = RiskLevel.critical) ∧
      (⟨"HbA1c", 6.8, 6.5⟩ : ContributingFactor) ∈ r.contributing_factors ∧
      0 ≤ r.score ∧ r.score ≤ 100 := by
  have h56 : subScoreHbA1c 6.8 = 56 := by norm_num [subScoreHbA1c, subScore]
  set vF := latest_samples Metric.fastingBloodSugar with hvF
  set sF := optSubScore subScoreFBS vF with hsF
  have hF0 : 0 ≤ sF := optSubScoreFBS_nonneg vF
  set sc := min 100 (56 + sF) with hsc
  have hda : assessDiabetes subject_id latest_samples = some
      ⟨subject_id, .diabetes, sc, levelOf sc,
        optFactor "HbA1c" subScoreHbA1c 5.7 6.5 (latest_samples Metric.hba1c) ++
          optFactor "Fasting Blood Sugar" subScoreFBS 100 126 vF,
        diabetesRecommendations (levelOf sc)⟩ := by
    unfold assessDiabetes
    rw [h]
    simp [optSubScore, h56, hsc, hsF, hvF]
  have h50 : 50 ≤ sc := by
    rw [hsc, le_min_iff]; constructor <;> linarith
  have h100 : sc ≤ 100 := min_le_left _ _
  have h0 : (0:ℚ) ≤ sc := by rw [hsc, le_min_iff]; constructor <;> linarith
  refine ⟨⟨subject_id, .diabetes, sc, levelOf sc,
      optFactor "HbA1c" subScoreHbA1c 5.7 6.5 (latest_samples Metric.hba1c) ++
        optFactor "Fasting Blood Sugar" subScoreFBS 100 126 vF,
      diabetesRecommendations (levelOf sc)⟩, ?_, rfl, ?_, ?_, h0, h100⟩
  · simp only [assess, List.mem_filterMap, id]
    exact ⟨_, List.mem_cons_self _ _, hda⟩
  · unfold levelOf
    split_ifs with hl1 hl2 hl3
    · exact absurd hl1 (by linarith)
    · exact absurd hl2 (by linarith)
    · exact Or.inl rfl
    · exact Or.inr rfl
  · rw [h]
    have hfac : optFactor "HbA1c" subScoreHbA1c 5.7 6.5 (some 6.8) =
        [⟨"HbA1c", 6.8, 6.5⟩] := by
      norm_num [optFactor, subScoreHbA1c, subScore, breachedThreshold]
    rw [hfac]
    exact List.mem_append_left _ (List.mem_singleton.mpr rfl)

/-- Witness for C1 at the concrete map `samplesDemo`. -/
theorem assess_hba1c_diabetes_high_witness :
    ∃ r ∈ assess "subject-1" samplesDemo,
      r.category = RiskCategory.diabetes ∧
      (r.level = RiskLevel.high ∨ r.level = RiskLevel.critical) ∧
      (⟨"HbA1c", 6.8, 6.5⟩ : ContributingFactor) ∈ r.contributing_factors ∧
      0 ≤ r.score ∧ r.score ≤ 100 :=
  assess_hba1c_diabetes_high "subject-1" samplesDemo (by simp [samplesDemo])

/-! ## Predictor: exact linear extrapolation -/

/-- C2: on the series with values 10, 20, 30 at day offsets 0, 10, 20,
`predict` 10 days ahead returns exactly 40 with perfect fit quality and no
low-confidence flag; in general the predicted value is the OLS line fitted
on (day offset, value) evaluated at the last offset plus the horizon. -/
theorem predict_ols_extrapolation :
    predict predDemo 10 =
      Except.ok ⟨"HbA1c", 10, 40, 1, false⟩ ∧
    ∀ (series : List MetricSample) (days_ahead : Int) (p : Prediction),
      predict series days_ahead = Except.ok p →
      p.predicted_value =
        olsLine (seriesPoints series) (lastOffset series + (days_ahead : ℚ)) := by
  constructor
  · have hdedup : ((predDemo.map (·.date)).dedup) = [0, 10, 20] := by decide
    have hpts : seriesPoints predDemo = [(0, 10), (10, 20), (20, 30)] := by
      simp [seriesPoints, predDemo, firstDate]
    have hslope : olsSlope [((0:ℚ), (10:ℚ)), (10, 20), (20, 30)] = 1 := by
      norm_num [olsSlope, sxx, sxy, xbar, ybar]
    have hlast : lastDate predDemo = 20 := by decide
    have hfirst : firstDate predDemo = 0 := by decide
    have hoff : lastOffset predDemo = 20 := by norm_num [lastOffset, hlast, hfirst]
    have hname : metricNameOf predDemo = "HbA1c" := rfl
    simp only [predict, hdedup, hpts, hlast, hfirst, hname, hoff]
    norm_num [olsLine, olsIntercept, hslope, ybar, xbar, rSquared, ssRes, ssTot]
  · intro series days_ahead p h
    unfold predict at h
    split_ifs at h
    cases h
    rfl

lemma flagFor_index {m v : ℚ} {ok : Bool} {i : Nat} {s : MetricSample} {f : AnomalyFlag}
    (h : flagFor m v ok i s = some f) : f.sample_index = i := by
  unfold flagFor at h
  split_ifs at h
  cases h
  rfl

lemma mem_anomalyReasons_stat {m v : ℚ} {ok : Bool} {s : MetricSample} :
    AnomalyReason.statisticalOutlier ∈ anomalyReasons m v ok s ↔
      ok = true ∧ (s.value - m) ^ 2 > 4 * v := by
  unfold anomalyReasons
  by_cases h1 : (ok && decide ((s.value - m) ^ 2 > 4 * v)) = true <;>
    by_cases h2 : outsideRange s = true <;> simp_all

lemma mem_anomalyReasons_clin {m v : ℚ} {ok : Bool} {s : MetricSample} :
    AnomalyReason.outOfClinicalRange ∈ anomalyReasons m v ok s ↔
      outsideRange s = true := by
  unfold anomalyReasons
  by_cases h1 : (ok && decide ((s.value - m) ^ 2 > 4 * v)) = true <;>
    by_cases h2 : outsideRange s = true <;> simp_all

lemma flagFor_reasons {m v : ℚ} {ok : Bool} {i : Nat} {s : MetricSample} {f : AnomalyFlag}
    (h : flagFor m v ok i s = some f) : f.reasons = anomalyReasons m v ok s := by
  unfold flagFor at h
  split_ifs at h
  cases h
  rfl

lemma flagFor_isSome_of_reason {m v : ℚ} {ok : Bool} {i : Nat} {s : MetricSample}
    {r : AnomalyReason} (hr : r ∈ anomalyReasons m v ok s) :
    (flagFor m v ok i s).isSome := by
  unfold flagFor
  split_ifs with h
  · rw [List.isEmpty_iff] at h
    rw [h] at hr
    cases hr
  · rfl

lemma enum_pairwise (series : List MetricSample) :
    series.enum.Pairwise (fun a b => a.1 ≠ b.1) := by
  have h : (series.enum.map Prod.fst).Nodup := by
    rw [List.enum_map_fst]; exact List.nodup_range _
  exact List.pairwise_map.mp h

lemma filterMap_flagFor_pairwise (m v : ℚ) (ok : Bool) :
    ∀ l : List (Nat × MetricSample), l.Pairwise (fun a b => a.1 ≠ b.1) →
      (l.filterMap (fun p => flagFor m v ok p.1 p.2)).Pairwise
        (fun f g => f.sample_index ≠ g.sample_index)
  | [], _ => List.Pairwise.nil
  | p :: l, hp => by
    rw [List.pairwise_cons] at hp
    rw [List.filterMap_cons]
    cases hfp : flagFor m v ok p.1 p.2 with
    | none => exact filterMap_flagFor_pairwise m v ok l hp.2
    | some b =>
      refine List.Pairwise.cons ?_ (filterMap_flagFor_pairwise m v ok l hp.2)
      intro g hg
      obtain ⟨q, hq, hfq⟩ := List.mem_filterMap.mp hg
      have hb : b.sample_index = p.1 := flagFor_index hfp
      have hgq : g.sample_index = q.1 := flagFor_index hfq
      rw [hb, hgq]
      exact hp.1 q hq

lemma seriesVar_const (series : List MetricSample) (c : ℚ) (hne : series ≠ [])
    (hc : ∀ x ∈ series, x.value = c) : seriesVar series = 0 := by
  have hn : ((series.length : ℚ)) ≠ 0 := by
    simpa using (Nat.cast_ne_zero (R := ℚ)).mpr (mt List.length_eq_zero.mp hne)
  have hrep : series.map (·.value) = List.replicate series.length c := by
    have := List.eq_replicate_of_mem (l := series.map (·.value)) (a := c) ?_
    · simpa using this
    · intro b hb
      obtain ⟨x, hx, rfl⟩ := List.mem_map.mp hb
      exact hc x hx
  have hmean : seriesMean series = c := by
    unfold seriesMean
    rw [hrep, List.sum_replicate, nsmul_eq_mul]
    field_simp
  have hzero : series.map (fun s => (s.value - seriesMean series) ^ 2) =
      List.replicate series.length 0 := by
    have := List.eq_replicate_of_mem
      (l := series.map (fun s => (s.value - seriesMean series) ^ 2)) (a := (0:ℚ)) ?_
    · simpa using this
    · intro b hb
      obtain ⟨x, hx, rfl⟩ := List.mem_map.mp hb
      rw [hc x hx, hmean]
      ring
  unfold seriesVar
  rw [hzero, List.sum_replicate]
  simp

/-- C3: on a constant series of length ≥ 2 (standard deviation 0) the
detector produces no STATISTICAL_OUTLIER flag — every flag it returns
carries exactly the OUT_OF_CLINICAL_RANGE reason — and the zero-variance
branch is the explicit guard, so no division by zero occurs. -/
theorem detect_constant_no_statistical (series : List MetricSample) (c : ℚ)
    (h2 : 2 ≤ series.length) (hc : ∀ x ∈ series, x.value = c) :
    ∀ f ∈ detect series, f.reasons = [AnomalyReason.outOfClinicalRange] := by
  intro f hf
  have hne : series ≠ [] := by
    intro h; rw [h] at h2; simp at h2
  have hv : seriesVar series = 0 := seriesVar_const series c hne hc
  unfold detect at hf
  obtain ⟨p, hp, hfl⟩ := List.mem_filterMap.mp hf
  have hok : (decide (2 ≤ series.length) && decide (seriesVar series ≠ 0)) = false := by
    simp [hv]
  rw [hok] at hfl
  have hr := flagFor_reasons hfl
  cases houts : outsideRange p.2 with
  | false =>
    exfalso
    unfold flagFor at hfl
    simp [anomalyReasons, houts] at hfl
  | true =>
    rw [hr]
    unfold anomalyReasons
    simp [houts]

/-- Witness for C3 on the constant out-of-range series `constDemo`. -/
theorem detect_constant_no_statistical_witness :
    constDemoFlag.reasons = [AnomalyReason.outOfClinicalRange] := by
  have hmean : seriesMean constDemo = 13 := by norm_num [seriesMean, constDemo]
  have hvar : seriesVar constDemo = 0 := by norm_num [seriesVar, seriesMean, constDemo]
  have hout : outsideRange (⟨"subject-1", "HbA1c", 0, 13, "%"⟩ : MetricSample) = true := by
    norm_num [outsideRange, parseMetric, allMetrics, canonicalName, normalRange, List.find?]
  have hfl : flagFor (seriesMean constDemo) (seriesVar constDemo)
      (decide (2 ≤ constDemo.length) && decide (seriesVar constDemo ≠ 0)) 0
      (⟨"subject-1", "HbA1c", 0, 13, "%"⟩ : MetricSample) = some constDemoFlag := by
    rw [hvar, hmean]
    simp [flagFor, anomalyReasons, zSqOf, hout, constDemoFlag]
  refine detect_constant_no_statistical constDemo 13 (by norm_num [constDemo])
    (by intro x hx
        simp only [constDemo, List.mem_cons, List.not_mem_nil, or_false] at hx
        rcases hx with rfl | rfl <;> rfl)
    constDemoFlag ?_
  show constDemoFlag ∈ detect constDemo
  unfold detect
  exact List.mem_filterMap.mpr
    ⟨(0, ⟨"subject-1", "HbA1c", 0, 13, "%"⟩),
      List.mk_mem_enum_iff_getElem?.mpr rfl, hfl⟩

/-- C5: on a series of length ≥ 2 with nonzero variance, a sample is
flagged STATISTICAL_OUTLIER exactly when its squared z-score exceeds 4
(i.e. |z| > 2 over the real standard deviation), is flagged
OUT_OF_CLINICAL_RANGE exactly when its value is strictly outside its
metric's normal range (the very first sample included), and each sample is
reported at most once, a flag carrying both reasons where both hold. -/
theorem detect_flag_characterization (series : List MetricSample)
    (h2 : 2 ≤ series.length) (hv : seriesVar series ≠ 0) :
    (∀ (i : Nat) (x : MetricSample), series[i]? = some x →
      (((∃ f ∈ detect series, f.sample_index = i ∧
            AnomalyReason.statisticalOutlier ∈ f.reasons) ↔
          (x.value - seriesMean series) ^ 2 > 4 * seriesVar series) ∧
       ((∃ f ∈ detect series, f.sample_index = i ∧
            AnomalyReason.outOfClinicalRange ∈ f.reasons) ↔
          outsideRange x = true))) ∧
    (detect series).Pairwise (fun f g => f.sample_index ≠ g.sample_index) := by
  have hok : (decide (2 ≤ series.length) && decide (seriesVar series ≠ 0)) = true := by
    simp [h2, hv]
  constructor
  · intro i x hx
    have hxy : ∀ j (y : MetricSample) (f : AnomalyFlag),
        (j, y) ∈ series.enum →
        flagFor (seriesMean series) (seriesVar series)
          (decide (2 ≤ series.length) && decide (seriesVar series ≠ 0)) j y = some f →
        f.sample_index = i → y = x := by
      intro j y f hp hfl hidx
      have hji : j = i := by
        have h1 : f.sample_index = j := flagFor_index hfl
        rw [← h1]; exact hidx
      subst hji
      have := List.mk_mem_enum_iff_getElem?.mp hp
      rw [hx] at this
      exact (Option.some_inj.mp this).symm
    constructor
    · constructor
      · rintro ⟨f, hf, hidx, hmem⟩
        obtain ⟨⟨j, y⟩, hp, hfl⟩ := List.mem_filterMap.mp hf
        have hyx := hxy j y f hp hfl hidx
        subst hyx
        rw [flagFor_reasons hfl, mem_anomalyReasons_stat] at hmem
        exact hmem.2
      · intro hc
        have hr : AnomalyReason.statisticalOutlier ∈
            anomalyReasons (seriesMean series) (seriesVar series)
              (decide (2 ≤ series.length) && decide (seriesVar series ≠ 0)) x :=
          mem_anomalyReasons_stat.mpr ⟨hok, hc⟩
        obtain ⟨f, hf⟩ := Option.isSome_iff_exists.mp (flagFor_isSome_of_reason (i := i) hr)
        refine ⟨f, ?_, flagFor_index hf, ?_⟩
        · exact List.mem_filterMap.mpr ⟨(i, x), List.mk_mem_enum_iff_getElem?.mpr hx, hf⟩
        · rw [flagFor_reasons hf]; exact hr
    · constructor
      · rintro ⟨f, hf, hidx, hmem⟩
        obtain ⟨⟨j, y⟩, hp, hfl⟩ := List.mem_filterMap.mp hf
        have hyx := hxy j y f hp hfl hidx
        subst hyx
        rw [flagFor_reasons hfl, mem_anomalyReasons_clin] at hmem
        exact hmem
      · intro hc
        have hr : AnomalyReason.outOfClinicalRange ∈
            anomalyReasons (seriesMean series) (seriesVar series)
              (decide (2 ≤ series.length) && decide (seriesVar series ≠ 0)) x :=
          mem_anomalyReasons_clin.mpr hc
        obtain ⟨f, hf⟩ := Option.isSome_iff_exists.mp (flagFor_isSome_of_reason (i := i) hr)
        refine ⟨f, ?_, flagFor_index hf, ?_⟩
        · exact List.mem_filterMap.mpr ⟨(i, x), List.mk_mem_enum_iff_getElem?.mpr hx, hf⟩
        · rw [flagFor_reasons hf]; exact hr
  · exact filterMap_flagFor_pairwise _ _ _ _ (enum_pairwise series)

/-- Witness for C5 at the third sample of `statDemo`. -/
theorem detect_flag_characterization_witness :
    ((∃ f ∈ detect statDemo, f.sample_index = 2 ∧
        AnomalyReason.statisticalOutlier ∈ f.reasons) ↔
      (statDemoSample.value - seriesMean statDemo) ^ 2 > 4 * seriesVar statDemo) ∧
    ((∃ f ∈ detect statDemo, f.sample_index = 2 ∧
        AnomalyReason.outOfClinicalRange ∈ f.reasons) ↔
      outsideRange statDemoSample = true) :=
  (detect_flag_characterization statDemo (by norm_num [statDemo])
    (by norm_num [seriesVar, seriesMean, statDemo])).1 2 statDemoSample rfl

/-! ## Error handling and determinism -/

/-- C4: on any single-sample series, both `analyze` and `predict` fail with
the `InsufficientData` error value (a returned value, not an exception),
for every requested horizon. -/
theorem single_sample_insufficient_data (x : MetricSample) (days_ahead : Int) :
    analyze [x] = Except.error AnalysisError.insufficientData ∧
    predict [x] days_ahead = Except.error AnalysisError.insufficientData := by
  refine ⟨rfl, ?_⟩
  simp [predict, List.dedup_cons_of_not_mem]

/-- C6: the analysis core is deterministic — `analyze` on the same series
and `generate` on the same inputs return identical results on every call;
in this pure-function embedding both calls are literally the same value. -/
theorem core_deterministic :
    (∀ series : List MetricSample, analyze series = analyze series) ∧
    (∀ (subject_id : String) (trends : List TrendResult)
        (anomalies : List AnomalyFlag) (risks : List RiskScore)
        (predictions : List Prediction),
      generate subject_id trends anomalies risks predictions =
        generate subject_id trends anomalies risks predictions) :=
  ⟨fun _ => rfl, fun _ _ _ _ _ => rfl⟩

/-- C8: a subject with zero raw records gets an empty insight list from
`generateInsights`, not an error. -/
theorem generateInsights_empty (subject_id : String) :
    generateInsights [] subject_id = [] := rfl

/-! ## TimeSeriesStore: ingestion invariants -/

lemma mem_insertByDate {s x : MetricSample} :
    ∀ {l : List MetricSample}, x ∈ insertByDate s l → x = s ∨ x ∈ l
  | [], h => by unfold insertByDate at h; simpa using h
  | t :: ts, h => by
    unfold insertByDate at h
    split_ifs at h with h1 h2
    · rcases List.mem_cons.mp h with h | h
      · exact Or.inl h
      · exact Or.inr h
    · rcases List.mem_cons.mp h with h | h
      · exact Or.inl h
      · exact Or.inr (List.mem_cons_of_mem _ h)
    · rcases List.mem_cons.mp h with h | h
      · exact Or.inr (h ▸ List.mem_cons_self _ _)
      · rcases mem_insertByDate h with h | h
        · exact Or.inl h
        · exact Or.inr (List.mem_cons_of_mem _ h)

lemma insertByDate_pairwise {s : MetricSample} :
    ∀ {l : List MetricSample}, l.Pairwise (fun a b => a.date < b.date) →
      (insertByDate s l).Pairwise (fun a b => a.date < b.date)
  | [], _ => by simp [insertByDate]
  | t :: ts, hp => by
    rw [List.pairwise_cons] at hp
    unfold insertByDate
    split_ifs with h1 h2
    · refine List.Pairwise.cons ?_ (List.Pairwise.cons hp.1 hp.2)
      intro b hb
      rcases List.mem_cons.mp hb with rfl | hb
      · exact h1
      · exact lt_trans h1 (hp.1 b hb)
    · refine List.Pairwise.cons ?_ hp.2
      intro b hb
      rw [h2]
      exact hp.1 b hb
    · refine List.Pairwise.cons ?_ (insertByDate_pairwise hp.2)
      intro b hb
      rcases mem_insertByDate hb with rfl | hb
      · omega
      · exact hp.1 b hb

lemma lookupDate_cons (d : Int) (a : MetricSample) (l : List MetricSample) :
    lookupDate d (a :: l) = if a.date = d then some a.value else lookupDate d l := by
  unfold lookupDate
  by_cases h : a.date = d <;> simp [List.find?_cons, h]

lemma lookupDate_insertByDate (d : Int) (s : MetricSample) :
    ∀ l : List MetricSample,
      lookupDate d (insertByDate s l) =
        if s.date = d then some s.value else lookupDate d l
  | [] => by
    unfold insertByDate
    rw [lookupDate_cons]
  | t :: ts => by
    unfold insertByDate
    by_cases hlt : s.date < t.date
    · rw [if_pos hlt, lookupDate_cons]
    · by_cases heq2 : s.date = t.date
      · rw [if_neg hlt, if_pos heq2, lookupDate_cons, lookupDate_cons]
        by_cases h : s.date = d
        · simp [h]
        · have ht : ¬ t.date = d := by omega
          simp [h, ht]
      · rw [if_neg hlt, if_neg heq2, lookupDate_cons,
          lookupDate_insertByDate d s ts, lookupDate_cons]
        by_cases ht : t.date = d <;> by_cases hs : s.date = d
        · exact absurd (ht.trans hs.symm).symm heq2
        · simp [ht, hs]
        · simp [ht, hs]
        · simp [ht, hs]

lemma ingestStep_lookup (store : String × String → List MetricSample)
    (s : MetricSample) (k : String × String) (d : Int) :
    lookupDate d (ingestStep store s k) = lastWrite k d (lookupDate d (store k)) s := by
  unfold ingestStep lastWrite
  by_cases hk : k = (s.subject_id, s.metric_name)
  · subst hk
    rw [if_pos rfl, lookupDate_insertByDate]
    by_cases hd : s.date = d
    · rw [if_pos hd, if_pos ⟨rfl, hd⟩]
    · rw [if_neg hd, if_neg (by simp [hd])]
  · rw [if_neg hk, if_neg (by rintro ⟨h, -⟩; exact hk h.symm)]

lemma ingest_foldl_lookup :
    ∀ (es : List MetricSample) (store : String × String → List MetricSample)
      (k : String × String) (d : Int),
      lookupDate d ((es.foldl ingestStep store) k) =
        es.foldl (lastWrite k d) (lookupDate d (store k))
  | [], _, _, _ => rfl
  | s :: es, store, k, d => by
    rw [List.foldl_cons, List.foldl_cons, ingest_foldl_lookup es (ingestStep store s) k d,
      ingestStep_lookup]

lemma ingest_foldl_pairwise :
    ∀ (es : List MetricSample) (store : String × String → List MetricSample),
      (∀ k, (store k).Pairwise (fun a b => a.date < b.date)) →
      ∀ k, ((es.foldl ingestStep store) k).Pairwise (fun a b => a.date < b.date)
  | [], _, h, k => h k
  | s :: es, store, h, k => by
    rw [List.foldl_cons]
    refine ingest_foldl_pairwise es (ingestStep store s) (fun k2 => ?_) k
    unfold ingestStep
    split_ifs
    · exact insertByDate_pairwise (h k2)
    · exact h k2

lemma ingest_foldl_mem :
    ∀ (es : List MetricSample) (store : String × String → List MetricSample)
      (k : String × String) (x : MetricSample),
      x ∈ (es.foldl ingestStep store) k → x ∈ es ∨ x ∈ store k
  | [], _, _, _, h => Or.inr h
  | s :: es, store, k, x, h => by
    rw [List.foldl_cons] at h
    rcases ingest_foldl_mem es (ingestStep store s) k x h with h2 | h2
    · exact Or.inl (List.mem_cons_of_mem _ h2)
    · unfold ingestStep at h2
      split_ifs at h2
      · rcases mem_insertByDate h2 with rfl | h3
        · exact Or.inl (List.mem_cons_self _ _)
        · exact Or.inr h3
      · exact Or.inr h2

lemma recordEntries_metric {r : RawRecord} {x : MetricSample}
    (h : x ∈ recordEntries r) : ∃ m : Metric, x.metric_name = canonicalName m := by
  unfold recordEntries at h
  obtain ⟨kv, -, heq⟩ := List.mem_filterMap.mp h
  rcases hp : parseMetric kv.1 with - | m <;> rcases hv : kv.2.raw_value with - | q <;>
    rw [hp, hv] at heq <;> simp at heq
  rcases heq with ⟨-, rfl⟩
  exact ⟨m, rfl⟩

/-- C7: every series `ingest` produces is strictly sorted by date (hence
has no duplicate dates), holds only samples whose metric name is canonical
in the registry, and at each date carries the value of the last-ingested
entry for that (subject, metric, date) — the later write wins. -/
theorem ingest_series_invariants (records : List RawRecord) (subject metric : String) :
    ((ingest records (subject, metric)).Pairwise (fun a b => a.date < b.date)) ∧
    (∀ x ∈ ingest records (subject, metric),
      ∃ m : Metric, x.metric_name = canonicalName m) ∧
    (∀ d : Int, lookupDate d (ingest records (subject, metric)) =
      lastWriteValue records (subject, metric) d) := by
  refine ⟨?_, ?_, ?_⟩
  · exact ingest_foldl_pairwise _ _ (fun _ => List.Pairwise.nil) _
  · intro x hx
    rcases ingest_foldl_mem _ _ _ x hx with h | h
    · obtain ⟨r, -, hxr⟩ := List.mem_flatMap.mp h
      exact recordEntries_metric hxr
    · cases h
  · intro d
    unfold ingest lastWriteValue
    exact ingest_foldl_lookup _ _ _ _

end Reform
